import Mathlib

/-!
Verification of `egalitarian_division` (main.py).

The program translates an n×m valuation matrix into a linear program
(max-min fairness), hands it to an external LP solver, and interprets the
solver's status and variable values into a result dictionary.

We embed the program over the rationals.  The solver is an external
collaborator (spec §4.3): `egalitarian_division` is parameterised by the
solver's outcome (`SolveResult`), and solver conformance to the constructed
program is an explicit predicate (`SolverSound` / `SolverComplete`).
-/

namespace EgalitarianDivision

/-- The status values the solver can report (spec §4.3):
exact optimum, inexact optimum, infeasible, unbounded, generic failure. -/
inductive SolverStatus where
  | optimal
  | optimal_inaccurate
  | infeasible
  | unbounded
  | solver_failure
deriving DecidableEq, Repr

/-- `problem.status in ["optimal", "optimal_inaccurate"]` — the success test
of main.py line 77. -/
def SuccessStatus (s : SolverStatus) : Prop :=
  s = SolverStatus.optimal ∨ s = SolverStatus.optimal_inaccurate

instance (s : SolverStatus) : Decidable (SuccessStatus s) := by
  unfold SuccessStatus; infer_instance

/-- The decision variables of the program (main.py lines 61-62):
the n×m matrix `allocations` and the scalar `min_utility`. -/
structure Assignment (n m : ℕ) where
  allocations : Fin n → Fin m → ℚ
  min_utility : ℚ

/-- `cp.sum(cp.multiply(allocations[i], valuation_matrix[i]))`
(main.py line 71), and equally the recomputation
`np.sum(allocations.value[i] * valuation_matrix[i])` (line 85). -/
def agent_utility (valuation_matrix : Fin n → Fin m → ℚ)
    (allocations : Fin n → Fin m → ℚ) (i : Fin n) : ℚ :=
  ∑ j, allocations i j * valuation_matrix i j

/-- The sum of one agent's row of an allocation matrix,
`allocations[i].sum()` in the doctest of main.py line 57. -/
def row_total (allocations : Fin n → Fin m → ℚ) (i : Fin n) : ℚ :=
  ∑ j, allocations i j

/-- The constraint objects the code appends to its `constraints` list
(main.py lines 64-72): the three vectorised constraints
`allocations >= 0`, `allocations <= 1`, `cp.sum(allocations, axis=0) == 1`,
and one `min_utility <= agent_utility` constraint per agent. -/
inductive CVXConstraint (n : ℕ) where
  | alloc_nonneg : CVXConstraint n
  | alloc_le_one : CVXConstraint n
  | colsum_eq_one : CVXConstraint n
  | floor_le_utility : Fin n → CVXConstraint n
deriving DecidableEq

/-- Semantics of one constraint object over an assignment of the variables. -/
def constraint_holds (valuation_matrix : Fin n → Fin m → ℚ)
    (x : Assignment n m) : CVXConstraint n → Prop
  | CVXConstraint.alloc_nonneg => ∀ i j, 0 ≤ x.allocations i j
  | CVXConstraint.alloc_le_one => ∀ i j, x.allocations i j ≤ 1
  | CVXConstraint.colsum_eq_one => ∀ j, (∑ i, x.allocations i j) = 1
  | CVXConstraint.floor_le_utility i =>
      x.min_utility ≤ agent_utility valuation_matrix x.allocations i

instance (valuation_matrix : Fin n → Fin m → ℚ) (x : Assignment n m)
    (c : CVXConstraint n) : Decidable (constraint_holds valuation_matrix x c) := by
  cases c <;> (unfold constraint_holds; infer_instance)

/-- The constraint list built by main.py lines 64-72: the literal
three-element list followed by the loop over agents. -/
def build_constraints (n : ℕ) : List (CVXConstraint n) :=
  [CVXConstraint.alloc_nonneg, CVXConstraint.alloc_le_one,
   CVXConstraint.colsum_eq_one] ++
    (List.finRange n).map CVXConstraint.floor_le_utility

/-- An assignment is feasible for the constructed program when it satisfies
every constraint in the built list. -/
def satisfies_constraints (valuation_matrix : Fin n → Fin m → ℚ)
    (x : Assignment n m) : Prop :=
  ∀ c ∈ build_constraints n, constraint_holds valuation_matrix x c

instance (valuation_matrix : Fin n → Fin m → ℚ) (x : Assignment n m) :
    Decidable (satisfies_constraints valuation_matrix x) := by
  unfold satisfies_constraints; infer_instance

/-- The solve is optimal: the assignment is feasible and its `min_utility`
(the maximised objective, main.py line 74) is greatest among feasible ones. -/
def IsOptimal (valuation_matrix : Fin n → Fin m → ℚ) (x : Assignment n m) : Prop :=
  satisfies_constraints valuation_matrix x ∧
    ∀ y, satisfies_constraints valuation_matrix y → y.min_utility ≤ x.min_utility

/-- The outcome of `problem.solve()` (main.py line 75): a status together
with a value for every declared variable. -/
structure SolveResult (n m : ℕ) where
  status : SolverStatus
  assignment : Assignment n m

/-- The solver contract, soundness half: whenever the solver reports
success, the variable values it hands back are an optimum of the program
it was given. -/
def SolverSound (valuation_matrix : Fin n → Fin m → ℚ)
    (r : SolveResult n m) : Prop :=
  SuccessStatus r.status → IsOptimal valuation_matrix r.assignment

/-- The objective of the constructed program is bounded above over the
feasible region. -/
def BoundedObjective (valuation_matrix : Fin n → Fin m → ℚ) : Prop :=
  ∃ B, ∀ x, satisfies_constraints valuation_matrix x → x.min_utility ≤ B

/-- The solver contract, completeness half: on a feasible program with a
bounded objective the solver reports success. -/
def SolverComplete (valuation_matrix : Fin n → Fin m → ℚ)
    (r : SolveResult n m) : Prop :=
  (∃ x, satisfies_constraints valuation_matrix x) →
    BoundedObjective valuation_matrix → SuccessStatus r.status

/-- `raise ValueError("Fair division impossible with given valuations")`
(main.py line 78). -/
def failure_message : String := "Fair division impossible with given valuations"

/-- The result dictionary returned by main.py lines 80-88. -/
structure DivisionResult (n m : ℕ) where
  status : SolverStatus
  min_utility : ℚ
  allocations : Fin n → Fin m → ℚ
  utilities : Fin n → ℚ

/-- main.py lines 60-88, with the outcome of the external
`problem.solve()` call injected as `solve`: if the status is neither
`optimal` nor `optimal_inaccurate` the call raises; otherwise it returns
the status, the solver's `min_utility` and `allocations` values, and the
utilities recomputed from the original valuation matrix (line 85). -/
def egalitarian_division (valuation_matrix : Fin n → Fin m → ℚ)
    (solve : SolveResult n m) : Except String (DivisionResult n m) :=
  if SuccessStatus solve.status then
    Except.ok
      { status := solve.status
        min_utility := solve.assignment.min_utility
        allocations := solve.assignment.allocations
        utilities := agent_utility valuation_matrix solve.assignment.allocations }
  else
    Except.error failure_message

/-- The program of claim C1, written from the spec's words (§4.1): each of
the n×m allocation variables lies in the closed interval [0,1]; for each
resource j the allocations of resource j sum to 1 over the agents; for each
agent i the floor variable is at most Σ_j allocation[i][j]·valuation[i][j];
and nothing else is constrained. -/
def spec_program (valuation_matrix : Fin n → Fin m → ℚ)
    (x : Assignment n m) : Prop :=
  (∀ i j, x.allocations i j ∈ Set.Icc (0 : ℚ) 1) ∧
  (∀ j, (∑ i, x.allocations i j) = 1) ∧
  (∀ i, x.min_utility ≤ ∑ j, x.allocations i j * valuation_matrix i j)

/-- The equal-split assignment: every agent receives 1/n of every resource,
with the floor variable set to 0.  A feasible point for every valid input. -/
def equal_split (n m : ℕ) : Assignment n m where
  allocations := fun _ _ => (n : ℚ)⁻¹
  min_utility := 0

/-! Concrete inputs used as witnesses and counterexamples. -/

/-- The 1×1 valuation matrix [[1]]. -/
def vUnit : Fin 1 → Fin 1 → ℚ := fun _ _ => 1

/-- The 1×1 valuation matrix [[2]]. -/
def vUnit2 : Fin 1 → Fin 1 → ℚ := fun _ _ => 2

/-- The sole agent receives the whole sole resource, floor 1. -/
def xUnit : Assignment 1 1 where
  allocations := fun _ _ => 1
  min_utility := 1

/-- The sole agent receives the whole sole resource, floor 2. -/
def xUnit2 : Assignment 1 1 where
  allocations := fun _ _ => 1
  min_utility := 2

/-- A successful solver outcome for `vUnit`. -/
def rUnit : SolveResult 1 1 where
  status := SolverStatus.optimal
  assignment := xUnit

/-- An infeasible-status solver outcome. -/
def rBad : SolveResult 1 1 where
  status := SolverStatus.infeasible
  assignment := xUnit

/-- An unbounded-status solver outcome. -/
def rBad2 : SolveResult 1 1 where
  status := SolverStatus.unbounded
  assignment := xUnit

/-- The result dictionary for `vUnit` under `rUnit`. -/
def resUnit : DivisionResult 1 1 where
  status := SolverStatus.optimal
  min_utility := 1
  allocations := xUnit.allocations
  utilities := agent_utility vUnit xUnit.allocations

/-- The 2×2 valuation matrix [[10,0],[0,1]]. -/
def v7 : Fin 2 → Fin 2 → ℚ := fun i j =>
  if i.val = 0 then (if j.val = 0 then 10 else 0)
  else (if j.val = 0 then 0 else 1)

/-- [[10,0],[0,1]] with the entry (0,0) increased from 10 to 20. -/
def w7 : Fin 2 → Fin 2 → ℚ := fun i j =>
  if i.val = 0 then (if j.val = 0 then 20 else 0)
  else (if j.val = 0 then 0 else 1)

/-- Allocation [[1,0],[0,1]] with floor 1: each agent takes the resource
only they value. -/
def x7 : Assignment 2 2 where
  allocations := fun i j => if i.val = j.val then 1 else 0
  min_utility := 1

/-- Allocation [[1/10,0],[9/10,1]] with floor 1: agent 0 keeps only a tenth
of resource 0. -/
def y7 : Assignment 2 2 where
  allocations := fun i j =>
    if j.val = 0 then (if i.val = 0 then 1/10 else 9/10)
    else (if i.val = 0 then 0 else 1)
  min_utility := 1

/-- Scenario 3 of the doctests (main.py lines 49-58): [[100,100],[1,1]]. -/
def v8 : Fin 2 → Fin 2 → ℚ := fun i _ => if i.val = 0 then 100 else 1

/-- The optimal assignment for scenario 3: agent 0 receives 1/101 of each
resource, agent 1 the remaining 100/101, and both utilities equal 200/101. -/
def x8 : Assignment 2 2 where
  allocations := fun i _ => if i.val = 0 then 1/101 else 100/101
  min_utility := 200/101

/-- A successful solver outcome for scenario 3. -/
def r8 : SolveResult 2 2 where
  status := SolverStatus.optimal
  assignment := x8

/-- The result dictionary for scenario 3 under `r8`. -/
def res8 : DivisionResult 2 2 where
  status := SolverStatus.optimal
  min_utility := 200/101
  allocations := x8.allocations
  utilities := agent_utility v8 x8.allocations

/-- A malformed input: the 1×1 valuation matrix [[-5]] with a negative
entry. -/
def vNeg : Fin 1 → Fin 1 → ℚ := fun _ _ => -5

/-- The (forced) optimum for [[-5]]: the sole agent receives the whole
resource and the floor is -5. -/
def xNeg : Assignment 1 1 where
  allocations := fun _ _ => 1
  min_utility := -5

/-- A successful solver outcome for [[-5]]. -/
def rNeg : SolveResult 1 1 where
  status := SolverStatus.optimal
  assignment := xNeg

/-- The result dictionary the code returns for [[-5]]. -/
def resNeg : DivisionResult 1 1 where
  status := SolverStatus.optimal
  min_utility := -5
  allocations := xNeg.allocations
  utilities := agent_utility vNeg xNeg.allocations

/-! Helper lemmas. -/

/-- Unfolded form of feasibility for the constructed program. -/
theorem satisfies_constraints_iff (valuation_matrix : Fin n → Fin m → ℚ)
    (x : Assignment n m) :
    satisfies_constraints valuation_matrix x ↔
      ((∀ i j, 0 ≤ x.allocations i j) ∧ (∀ i j, x.allocations i j ≤ 1) ∧
        (∀ j, (∑ i, x.allocations i j) = 1) ∧
        (∀ i, x.min_utility ≤ agent_utility valuation_matrix x.allocations i)) := by
  constructor
  · intro h
    refine ⟨h CVXConstraint.alloc_nonneg ?_, h CVXConstraint.alloc_le_one ?_,
      h CVXConstraint.colsum_eq_one ?_,
      fun i => h (CVXConstraint.floor_le_utility i) ?_⟩ <;>
      simp [build_constraints]
  · rintro ⟨h1, h2, h3, h4⟩ c hc
    simp only [build_constraints, List.mem_append, List.mem_cons,
      List.not_mem_nil, or_false, List.mem_map, List.mem_finRange,
      true_and] at hc
    rcases hc with (rfl | rfl | rfl) | ⟨i, rfl⟩
    · exact h1
    · exact h2
    · exact h3
    · exact h4 i

/-- In the 1×1 case, giving the whole resource to the sole agent with floor
equal to the sole valuation c is optimal: the column constraint forces the
single allocation variable to 1, so every feasible floor is at most c. -/
theorem opt_const (c : ℚ) :
    IsOptimal (fun _ _ => c)
      ({ allocations := fun _ _ => 1, min_utility := c } : Assignment 1 1) := by
  constructor
  · rw [satisfies_constraints_iff]
    refine ⟨fun _ _ => zero_le_one, fun _ _ => le_refl 1, fun j => ?_, fun i => ?_⟩
    · rw [Fin.sum_univ_one]
    · show c ≤ agent_utility (fun _ _ => c) (fun _ _ => 1) i
      unfold agent_utility
      rw [Fin.sum_univ_one, one_mul]
  · intro y hy
    rw [satisfies_constraints_iff] at hy
    obtain ⟨-, -, h3, h4⟩ := hy
    have hu := h4 0
    unfold agent_utility at hu
    rw [Fin.sum_univ_one] at hu
    have hc := h3 0
    rw [Fin.sum_univ_one] at hc
    rw [hc, one_mul] at hu
    exact hu

/-- For a nonempty set of agents and non-negative valuations, the
equal-split assignment is feasible. -/
theorem equal_split_feasible (hn : 0 < n) (valuation_matrix : Fin n → Fin m → ℚ)
    (hv : ∀ i j, 0 ≤ valuation_matrix i j) :
    satisfies_constraints valuation_matrix (equal_split n m) := by
  rw [satisfies_constraints_iff]
  have hn0 : (0 : ℚ) < n := by exact_mod_cast hn
  refine ⟨fun i j => ?_, fun i j => ?_, fun j => ?_, fun i => ?_⟩
  · show (0 : ℚ) ≤ (n : ℚ)⁻¹
    positivity
  · show (n : ℚ)⁻¹ ≤ 1
    exact inv_le_one_of_one_le₀ (by exact_mod_cast hn)
  · show ∑ _i : Fin n, (n : ℚ)⁻¹ = 1
    rw [Finset.sum_const, Finset.card_univ, Fintype.card_fin, nsmul_eq_mul,
      mul_inv_cancel₀ (ne_of_gt hn0)]
  · show (0 : ℚ) ≤ agent_utility valuation_matrix (equal_split n m).allocations i
    unfold agent_utility equal_split
    exact Finset.sum_nonneg fun j _ =>
      mul_nonneg (by positivity) (hv i j)

/-- For non-negative valuations the objective is bounded above: every
feasible floor is at most the total valuation of agent 0 (each allocation
entry is at most 1). -/
theorem objective_bounded (hn : 0 < n) (valuation_matrix : Fin n → Fin m → ℚ)
    (hv : ∀ i j, 0 ≤ valuation_matrix i j) :
    BoundedObjective valuation_matrix := by
  refine ⟨∑ j, valuation_matrix ⟨0, hn⟩ j, fun x hx => ?_⟩
  rw [satisfies_constraints_iff] at hx
  obtain ⟨-, h2, -, h4⟩ := hx
  refine le_trans (h4 ⟨0, hn⟩) ?_
  exact Finset.sum_le_sum fun j _ =>
    mul_le_of_le_one_left (hv ⟨0, hn⟩ j) (h2 ⟨0, hn⟩ j)

/-- For a 2×2 program in which agent 1 values resource 0 at 0 and
resource 1 at 1, every feasible floor is at most 1. -/
theorem floor_le_one_of_agent_one (valuation_matrix : Fin 2 → Fin 2 → ℚ)
    (h0 : valuation_matrix 1 0 = 0) (h1 : valuation_matrix 1 1 = 1)
    (y : Assignment 2 2) (hy : satisfies_constraints valuation_matrix y) :
    y.min_utility ≤ 1 := by
  rw [satisfies_constraints_iff] at hy
  obtain ⟨-, h2, -, h4⟩ := hy
  have hu := h4 1
  unfold agent_utility at hu
  rw [Fin.sum_univ_two, h0, h1, mul_zero, mul_one, zero_add] at hu
  exact le_trans hu (h2 1 1)

/-- [[1,0],[0,1]] with floor 1 is optimal for the valuations [[10,0],[0,1]]. -/
theorem x7_optimal : IsOptimal v7 x7 := by
  constructor
  · rw [satisfies_constraints_iff]
    refine ⟨fun i j => ?_, fun i j => ?_, fun j => ?_, fun i => ?_⟩
    · fin_cases i <;> fin_cases j <;> norm_num [x7]
    · fin_cases i <;> fin_cases j <;> norm_num [x7]
    · fin_cases j <;> (rw [Fin.sum_univ_two]; norm_num [x7])
    · fin_cases i <;>
        (unfold agent_utility; rw [Fin.sum_univ_two]; norm_num [x7, v7])
  · intro y hy
    exact floor_le_one_of_agent_one v7 rfl rfl y hy

/-- [[1/10,0],[9/10,1]] with floor 1 is optimal for the valuations
[[20,0],[0,1]]. -/
theorem y7_optimal : IsOptimal w7 y7 := by
  constructor
  · rw [satisfies_constraints_iff]
    refine ⟨fun i j => ?_, fun i j => ?_, fun j => ?_, fun i => ?_⟩
    · fin_cases i <;> fin_cases j <;> norm_num [y7]
    · fin_cases i <;> fin_cases j <;> norm_num [y7]
    · fin_cases j <;> (rw [Fin.sum_univ_two]; norm_num [y7])
    · fin_cases i <;>
        (unfold agent_utility; rw [Fin.sum_univ_two]; norm_num [y7, w7])
  · intro y hy
    exact floor_le_one_of_agent_one w7 rfl rfl y hy

/-- The scenario-3 assignment `x8` is feasible for [[100,100],[1,1]]. -/
theorem x8_feasible : satisfies_constraints v8 x8 := by
  rw [satisfies_constraints_iff]
  refine ⟨fun i j => ?_, fun i j => ?_, fun j => ?_, fun i => ?_⟩
  · fin_cases i <;> norm_num [x8]
  · fin_cases i <;> norm_num [x8]
  · fin_cases j <;> (rw [Fin.sum_univ_two]; norm_num [x8])
  · fin_cases i <;>
      (unfold agent_utility; rw [Fin.sum_univ_two]; norm_num [x8, v8])

/-- For [[100,100],[1,1]] every feasible floor is at most 200/101:
adding agent 0's utility bound to 100 times agent 1's and using the two
column constraints gives 101·floor ≤ 200. -/
theorem v8_floor_le (y : Assignment 2 2) (hy : satisfies_constraints v8 y) :
    y.min_utility ≤ 200 / 101 := by
  rw [satisfies_constraints_iff] at hy
  obtain ⟨-, -, h3, h4⟩ := hy
  have hu0 := h4 0
  have hu1 := h4 1
  unfold agent_utility at hu0 hu1
  rw [Fin.sum_univ_two] at hu0 hu1
  have hc0 := h3 0
  have hc1 := h3 1
  rw [Fin.sum_univ_two] at hc0 hc1
  simp only [v8, Fin.val_zero, Fin.val_one] at hu0 hu1
  norm_num at hu0 hu1
  linarith

/-- `x8` is optimal for scenario 3. -/
theorem x8_optimal : IsOptimal v8 x8 := by
  refine ⟨x8_feasible, fun y hy => ?_⟩
  exact v8_floor_le y hy

/-- The entries of the scenario-3 matrix are non-negative. -/
theorem v8_entries_nonneg : ∀ i j, 0 ≤ v8 i j := by
  intro i j
  unfold v8
  split <;> norm_num

/-- At any optimum for scenario 3 the floor is exactly 200/101, and agent 0
(the high-valuation agent) receives a total share below 1/10: the floor
bound for agent 1 forces agent 0's row total to at most 2/101. -/
theorem v8_optimal_shape (x : Assignment 2 2) (hx : IsOptimal v8 x) :
    x.min_utility = 200 / 101 ∧ row_total x.allocations 0 < 1 / 10 := by
  obtain ⟨hf, hopt⟩ := hx
  have hle := v8_floor_le x hf
  have hge : (200 : ℚ) / 101 ≤ x.min_utility := hopt x8 x8_feasible
  have hfloor : x.min_utility = 200 / 101 := le_antisymm hle hge
  refine ⟨hfloor, ?_⟩
  rw [satisfies_constraints_iff] at hf
  obtain ⟨-, -, h3, h4⟩ := hf
  have hu1 := h4 1
  unfold agent_utility at hu1
  rw [Fin.sum_univ_two] at hu1
  have hc0 := h3 0
  have hc1 := h3 1
  rw [Fin.sum_univ_two] at hc0 hc1
  simp only [v8, Fin.val_one] at hu1
  norm_num at hu1
  unfold row_total
  rw [Fin.sum_univ_two]
  linarith [hu1, hfloor]

/-! Claims. -/

/-- C1: for every valid n×m valuation matrix, `egalitarian_division`
constructs exactly the claimed program: n×m allocation variables each in
[0,1], one scalar floor variable, for each resource an equality constraint
that the allocations of that resource sum to 1, for each agent the
constraint floor ≤ Σ_j allocation[i][j]·valuation[i][j], and no other
constraints: an assignment of the declared variables satisfies the
constraint list built by main.py lines 64-72 if and only if it satisfies
the claimed program. -/
theorem program_construction_exact (valuation_matrix : Fin n → Fin m → ℚ)
    (x : Assignment n m) :
    satisfies_constraints valuation_matrix x ↔ spec_program valuation_matrix x := by
  rw [satisfies_constraints_iff]
  unfold spec_program agent_utility
  constructor
  · rintro ⟨h1, h2, h3, h4⟩
    exact ⟨fun i j => Set.mem_Icc.mpr ⟨h1 i j, h2 i j⟩, h3, h4⟩
  · rintro ⟨h1, h2, h3⟩
    exact ⟨fun i j => (Set.mem_Icc.mp (h1 i j)).1,
      fun i j => (Set.mem_Icc.mp (h1 i j)).2, h2, h3⟩

/-- C2: for every valid valuation matrix (n ≥ 1, m ≥ 1, entries ≥ 0) the
constructed program is feasible and its objective is bounded above, so a
solver conforming to the contract of spec §4.3 reports success and
`egalitarian_division` returns a result: the error branch of main.py
line 78 is unreachable. -/
theorem feasibility_invariant (hn : 0 < n) (_hm : 0 < m)
    (valuation_matrix : Fin n → Fin m → ℚ)
    (hv : ∀ i j, 0 ≤ valuation_matrix i j)
    (r : SolveResult n m) (hr : SolverComplete valuation_matrix r) :
    (∃ x, satisfies_constraints valuation_matrix x) ∧
      BoundedObjective valuation_matrix ∧
      ∃ res, egalitarian_division valuation_matrix r = Except.ok res := by
  have hfeas : ∃ x, satisfies_constraints valuation_matrix x :=
    ⟨equal_split n m, equal_split_feasible hn valuation_matrix hv⟩
  have hbdd := objective_bounded hn valuation_matrix hv
  have hs := hr hfeas hbdd
  refine ⟨hfeas, hbdd, ?_⟩
  simp only [egalitarian_division, if_pos hs]
  exact ⟨_, rfl⟩

theorem feasibility_invariant_witness :
    (∃ x, satisfies_constraints vUnit x) ∧ BoundedObjective vUnit ∧
      ∃ res, egalitarian_division vUnit rUnit = Except.ok res :=
  feasibility_invariant one_pos one_pos vUnit (fun _ _ => zero_le_one) rUnit
    (fun _ _ => Or.inl rfl)

/-- C3: `egalitarian_division` fails exactly when the solver status is
neither optimal nor optimal_inaccurate; on a failing status it returns the
descriptive error and no allocation; on a success status it returns the
structure with the status (so optimal_inaccurate stays distinguishable),
the floor value, the allocation matrix, and the utility vector. -/
theorem status_dichotomy (valuation_matrix : Fin n → Fin m → ℚ)
    (r : SolveResult n m) :
    (SuccessStatus r.status →
      egalitarian_division valuation_matrix r = Except.ok
        { status := r.status
          min_utility := r.assignment.min_utility
          allocations := r.assignment.allocations
          utilities := agent_utility valuation_matrix r.assignment.allocations }) ∧
    (¬ SuccessStatus r.status →
      egalitarian_division valuation_matrix r = Except.error failure_message) := by
  constructor
  · intro h
    unfold egalitarian_division
    rw [if_pos h]
  · intro h
    unfold egalitarian_division
    rw [if_neg h]

theorem status_dichotomy_witness :
    egalitarian_division vUnit rUnit = Except.ok
      { status := SolverStatus.optimal
        min_utility := 1
        allocations := xUnit.allocations
        utilities := agent_utility vUnit xUnit.allocations } ∧
    egalitarian_division vUnit rBad = Except.error failure_message :=
  ⟨(status_dichotomy vUnit rUnit).1 (Or.inl rfl),
   (status_dichotomy vUnit rBad).2 (by decide)⟩

/-- C4: for every successful result obtained from a sound solver, every
entry of the returned allocation matrix lies in [0,1] and each resource's
allocations sum to 1 (the returned values satisfy the constraints the code
built; in the exact rational model the tolerance is zero). -/
theorem allocation_validity (valuation_matrix : Fin n → Fin m → ℚ)
    (r : SolveResult n m) (res : DivisionResult n m)
    (hok : egalitarian_division valuation_matrix r = Except.ok res)
    (hs : SolverSound valuation_matrix r) :
    (∀ i j, 0 ≤ res.allocations i j ∧ res.allocations i j ≤ 1) ∧
    (∀ j, (∑ i, res.allocations i j) = 1) := by
  by_cases h : SuccessStatus r.status
  · have hfeas := (hs h).1
    rw [satisfies_constraints_iff] at hfeas
    obtain ⟨h1, h2, h3, -⟩ := hfeas
    unfold egalitarian_division at hok
    rw [if_pos h] at hok
    injection hok with hok
    subst hok
    exact ⟨fun i j => ⟨h1 i j, h2 i j⟩, h3⟩
  · exfalso
    unfold egalitarian_division at hok
    rw [if_neg h] at hok
    exact Except.noConfusion hok

theorem allocation_validity_witness :
    (0 ≤ resUnit.allocations 0 0 ∧ resUnit.allocations 0 0 ≤ 1) ∧
      (∑ i, resUnit.allocations i 0) = 1 :=
  ⟨(allocation_validity vUnit rUnit resUnit rfl (fun _ => opt_const 1)).1 0 0,
   (allocation_validity vUnit rUnit resUnit rfl (fun _ => opt_const 1)).2 0⟩

/-- C5: every successful result carries utilities recomputed directly from
the original valuation matrix and the returned allocation,
utilities[i] = Σ_j allocation[i][j]·valuation[i][j] (main.py lines 84-87),
not read from a solver-internal objective value. -/
theorem utilities_recomputed (valuation_matrix : Fin n → Fin m → ℚ)
    (r : SolveResult n m) (res : DivisionResult n m)
    (hok : egalitarian_division valuation_matrix r = Except.ok res) (i : Fin n) :
    res.utilities i = ∑ j, res.allocations i j * valuation_matrix i j := by
  by_cases h : SuccessStatus r.status
  · unfold egalitarian_division at hok
    rw [if_pos h] at hok
    injection hok with hok
    subst hok
    rfl
  · exfalso
    unfold egalitarian_division at hok
    rw [if_neg h] at hok
    exact Except.noConfusion hok

theorem utilities_recomputed_witness :
    resUnit.utilities 0 = ∑ j, resUnit.allocations 0 j * vUnit 0 j :=
  utilities_recomputed vUnit rUnit resUnit rfl 0

/-- C6: for every successful result obtained from a sound solver, the
returned min_utility equals the minimum over the agents of the recomputed
utilities: feasibility gives floor ≤ every utility, and raising the floor
to that minimum stays feasible, so optimality forces equality. -/
theorem floor_consistency (valuation_matrix : Fin n → Fin m → ℚ) (i0 : Fin n)
    (r : SolveResult n m) (res : DivisionResult n m)
    (hok : egalitarian_division valuation_matrix r = Except.ok res)
    (hs : SolverSound valuation_matrix r) :
    res.min_utility = Finset.univ.inf' ⟨i0, Finset.mem_univ i0⟩ res.utilities := by
  by_cases h : SuccessStatus r.status
  · obtain ⟨hfeas, hopt⟩ := hs h
    unfold egalitarian_division at hok
    rw [if_pos h] at hok
    injection hok with hok
    subst hok
    have hf := (satisfies_constraints_iff valuation_matrix r.assignment).mp hfeas
    obtain ⟨h1, h2, h3, h4⟩ := hf
    refine le_antisymm (Finset.le_inf' _ _ fun i _ => h4 i) ?_
    have hy : satisfies_constraints valuation_matrix
        { allocations := r.assignment.allocations
          min_utility := Finset.univ.inf' ⟨i0, Finset.mem_univ i0⟩
            (agent_utility valuation_matrix r.assignment.allocations) } := by
      rw [satisfies_constraints_iff]
      exact ⟨h1, h2, h3, fun i =>
        Finset.inf'_le (agent_utility valuation_matrix r.assignment.allocations)
          (Finset.mem_univ i)⟩
    exact hopt _ hy
  · exfalso
    unfold egalitarian_division at hok
    rw [if_neg h] at hok
    exact Except.noConfusion hok

theorem floor_consistency_witness :
    resUnit.min_utility =
      Finset.univ.inf' ⟨0, Finset.mem_univ 0⟩ resUnit.utilities :=
  floor_consistency vUnit 0 rUnit resUnit rfl (fun _ => opt_const 1)

/-- C7 counterexample: the claim fails because the optimal allocation is
not unique.  For [[10,0],[0,1]] the assignment [[1,0],[0,1]] (floor 1) is
optimal and gives agent 0 utility 10; after the single entry (0,0) is
increased to 20, the assignment [[1/10,0],[9/10,1]] (floor 1) is also
optimal yet gives agent 0 utility only 2.  Agent 0's achieved utility at
optimum decreased from 10 to 2. -/
theorem monotonicity_counterexample :
    v7 0 0 < w7 0 0 ∧
    v7 0 1 = w7 0 1 ∧ v7 1 0 = w7 1 0 ∧ v7 1 1 = w7 1 1 ∧
    IsOptimal v7 x7 ∧ IsOptimal w7 y7 ∧
    agent_utility w7 y7.allocations 0 < agent_utility v7 x7.allocations 0 := by
  refine ⟨by norm_num [v7, w7], rfl, rfl, rfl, x7_optimal, y7_optimal, ?_⟩
  norm_num [agent_utility, v7, w7, x7, y7, Fin.sum_univ_two]

/-- C7 amended: increasing an agent's valuation of a resource (all other
entries fixed, more generally any entrywise increase) never decreases the
achieved minimum utility at optimum — the optimal floor value is monotone —
though the agent's own achieved utility may decrease (see the
counterexample). -/
theorem monotonicity_of_optimal_floor (v w : Fin n → Fin m → ℚ)
    (hle : ∀ i j, v i j ≤ w i j) (x y : Assignment n m)
    (hx : IsOptimal v x) (hy : IsOptimal w y) :
    x.min_utility ≤ y.min_utility := by
  obtain ⟨hxf, -⟩ := hx
  obtain ⟨-, hyopt⟩ := hy
  apply hyopt
  rw [satisfies_constraints_iff] at hxf ⊢
  obtain ⟨h1, h2, h3, h4⟩ := hxf
  refine ⟨h1, h2, h3, fun i => le_trans (h4 i) ?_⟩
  exact Finset.sum_le_sum fun j _ =>
    mul_le_mul_of_nonneg_left (hle i j) (h1 i j)

theorem monotonicity_of_optimal_floor_witness :
    IsOptimal vUnit xUnit ∧ IsOptimal vUnit2 xUnit2 ∧
      xUnit.min_utility ≤ xUnit2.min_utility :=
  ⟨opt_const 1, opt_const 2,
   monotonicity_of_optimal_floor vUnit vUnit2 (fun _ _ => one_le_two)
     xUnit xUnit2 (opt_const 1) (opt_const 2)⟩

/-- C8 counterexample: for [[100,100],[1,1]] the assignment `x8` is
optimal, the solver outcome `r8` is sound, `egalitarian_division` succeeds,
and the low-valuation agent's (row 1's) total share is 200/101 ≈ 1.98, not
below 0.1: it is the high-valuation agent whose share is near zero. -/
theorem scenario3_counterexample :
    IsOptimal v8 x8 ∧ SolverSound v8 r8 ∧
    egalitarian_division v8 r8 = Except.ok res8 ∧
    ¬ (row_total res8.allocations 1 < 1 / 10) := by
  refine ⟨x8_optimal, fun _ => x8_optimal, rfl, ?_⟩
  norm_num [row_total, res8, x8, Fin.sum_univ_two]

/-- C8 amended: for the valuations [[100,100],[1,1]], a conforming solver
reports success, and every successful result has floor exactly 200/101 and
gives the HIGH-valuation agent (row 0, the row the doctest of main.py
line 57 checks) a total share below 0.1; the low-valuation agent receives
the rest. -/
theorem scenario3_amended (r : SolveResult 2 2) (res : DivisionResult 2 2)
    (hsnd : SolverSound v8 r) :
    (SolverComplete v8 r → SuccessStatus r.status) ∧
    (egalitarian_division v8 r = Except.ok res →
      res.min_utility = 200 / 101 ∧ row_total res.allocations 0 < 1 / 10) := by
  constructor
  · intro hcmp
    exact hcmp ⟨x8, x8_feasible⟩ (objective_bounded (by norm_num) v8 v8_entries_nonneg)
  · intro hok
    by_cases h : SuccessStatus r.status
    · unfold egalitarian_division at hok
      rw [if_pos h] at hok
      injection hok with hok
      subst hok
      exact v8_optimal_shape r.assignment (hsnd h)
    · exfalso
      unfold egalitarian_division at hok
      rw [if_neg h] at hok
      exact Except.noConfusion hok

theorem scenario3_amended_witness :
    SuccessStatus r8.status ∧
      (res8.min_utility = 200 / 101 ∧ row_total res8.allocations 0 < 1 / 10) :=
  ⟨(scenario3_amended r8 res8 (fun _ => x8_optimal)).1 (fun _ _ => Or.inl rfl),
   (scenario3_amended r8 res8 (fun _ => x8_optimal)).2 rfl⟩

/-- C9: main.py lines 60-75 perform no input validation.  On the malformed
matrix [[-5]] (a negative entry) the code does not reject: the constructed
program is solved — [[1]] with floor -5 is its optimum — and the call
returns a successful result whose sole utility is the negative value -5,
instead of failing with an InputError before construction. -/
theorem negative_input_accepted :
    IsOptimal vNeg xNeg ∧
    egalitarian_division vNeg rNeg = Except.ok resNeg ∧
    resNeg.utilities 0 = -5 := by
  refine ⟨opt_const (-5), rfl, ?_⟩
  norm_num [resNeg, agent_utility, vNeg, xNeg, Fin.sum_univ_one]

/-- C10: on every non-success status — infeasible, unbounded, and generic
solver failure alike, over any two inputs — `egalitarian_division` fails
with the one fixed message of main.py line 78, so the failure categories
are not distinguishable at the public interface. -/
theorem uniform_failure_message (valuation_matrix : Fin n → Fin m → ℚ)
    (valuation_matrix2 : Fin n2 → Fin m2 → ℚ)
    (r : SolveResult n m) (r2 : SolveResult n2 m2)
    (h : ¬ SuccessStatus r.status) (h2 : ¬ SuccessStatus r2.status) :
    egalitarian_division valuation_matrix r = Except.error failure_message ∧
    egalitarian_division valuation_matrix2 r2 = Except.error failure_message ∧
    failure_message = "Fair division impossible with given valuations" := by
  unfold egalitarian_division
  rw [if_neg h, if_neg h2]
  exact ⟨rfl, rfl, rfl⟩

theorem uniform_failure_message_witness :
    egalitarian_division vUnit rBad = Except.error failure_message ∧
    egalitarian_division vUnit rBad2 = Except.error failure_message ∧
    failure_message = "Fair division impossible with given valuations" :=
  uniform_failure_message vUnit vUnit rBad rBad2 (by decide) (by decide)

end EgalitarianDivision
